import Mathlib

/-!
Shallow embedding of the `sqlalchemy-sqlserver-wrapper` repository.

Source files embedded:
  * `src/custom_exceptions.py`  — the five exception classes
  * `src/connection_functions.py` — `generate_sql_connection_string`,
    `generate_sql_connection`
  * `src/database_object_configuration.py` — the `DatabaseConfig` class

Python exceptions are modelled as an error type returned through
`Except`; the mutable `DatabaseConfig` instance is modelled by explicit
state passing; the live database the engine talks to is modelled as a
`Database` value, and every introspection round-trip a call performs is
recorded in a `Query` trace so that temporal claims ("no table-existence
query is performed") can be stated.  Third-party driver imports are
assumed available: the `ImportError` branches of the source guard
library availability only and are not in scope of any claim.
-/

/-- The exception classes of `src/custom_exceptions.py`.  Exceptions that
the source constructs with a message carry that message. -/
inductive SqlError where
  | unknownDatabaseDriverError (msg : String)
  | connectionStringParsingError
  | missingSchemaError (msg : String)
  | missingTableError (msg : String)
  | missingViewError (msg : String)
  deriving DecidableEq, Repr

/-- `generate_sql_connection_string` from `src/connection_functions.py`.
Raising is modelled as returning `Except.error`. -/
def generate_sql_connection_string (server database : String)
    (uid pwd : Option String) : Except SqlError String :=
  match pwd with
  | none =>
    match uid with
    | none =>
      .ok ("DRIVER=\x7bSQL Server\x7d;" ++ "SERVER=" ++ server ++ ";" ++
        "DATABASE=" ++ database ++ ";" ++ "UID=;Trusted_Connection=Yes")
    | some uid =>
      .ok ("DRIVER=\x7bSQL Server\x7d;" ++ "SERVER=" ++ server ++ ";" ++
        "DATABASE=" ++ database ++ ";" ++ "UID=" ++ uid ++ ";" ++
        "Trusted_Connection=Yes")
  | some pwd =>
    match uid with
    | none => .error .connectionStringParsingError
    | some uid =>
      .ok ("DRIVER=\x7bSQL Server\x7d;" ++ "SERVER=" ++ server ++ ";" ++
        "DATABASE=" ++ database ++ ";" ++ "UID=" ++ uid ++ ";" ++
        "PWD=" ++ pwd)

/-- One hexadecimal digit, uppercase, as used by `urllib.parse.quote_plus`. -/
def hexDigit (n : Nat) : Char :=
  if n < 10 then Char.ofNat (48 + n) else Char.ofNat (55 + n)

/-- Percent-encoding of a single character by `urllib.parse.quote_plus`:
alphanumerics and `_.-~` are kept, a space becomes `+`, and every other
character is replaced by `%XX` escapes of its UTF-8 bytes. -/
def quotePlusChar (c : Char) : List Char :=
  if c = ' ' then ['+']
  else if c.isAlphanum ∨ c = '_' ∨ c = '.' ∨ c = '-' ∨ c = '~' then [c]
  else
    ((String.singleton c).toUTF8.toList.map
      (fun b => ['%', hexDigit (b.toNat / 16), hexDigit (b.toNat % 16)])).flatten

/-- `urllib.parse.quote_plus` applied to a whole string. -/
def quote_plus (s : String) : String :=
  ⟨(s.data.map quotePlusChar).flatten⟩

/-- The connection objects the three driver branches of
`generate_sql_connection` return: a sqlalchemy engine built from a URL, a
pyodbc connection built from the connection string, or a pymssql
connection built from keyword arguments. -/
inductive Connection where
  | sqlalchemyEngine (url : String)
  | pyodbcConnection (connection_string : String)
  | pymssqlConnection (server database : String) (user password : Option String)
  deriving DecidableEq, Repr

/-- `generate_sql_connection` from `src/connection_functions.py`.  The
connection string is built first; only then is the driver tag
dispatched.  Driver imports are modelled as available. -/
def generate_sql_connection (server database : String)
    (uid pwd : Option String) (driver : String) : Except SqlError Connection := do
  let connection_string ← generate_sql_connection_string server database uid pwd
  if driver = "sqlalchemy" then
    .ok (.sqlalchemyEngine
      ("mssql+pyodbc:///?odbc_connect=" ++ quote_plus connection_string))
  else if driver = "pyodbc" then
    .ok (.pyodbcConnection connection_string)
  else if driver = "pymssql" then
    if uid = none ∨ pwd = none then
      .ok (.pymssqlConnection server database none none)
    else
      .ok (.pymssqlConnection server database uid pwd)
  else
    .error (.unknownDatabaseDriverError
      ("Unknown database connection driver: " ++ driver ++
        "\n            Options are: sqlalchemy, pyodbc, pymssql"))

/-- The live SQL database the engine talks to, as seen through the
introspection calls the source makes (`get_schema_names`,
`get_table_names(schema)`, `get_view_names(schema)`).  The table and
view lists are per-schema association lists; a schema not listed has no
tables/views, matching an inspector returning an empty list. -/
structure Database where
  schema_names : List String
  table_names : List (String × List String)
  view_names : List (String × List String)
  deriving DecidableEq, Repr

/-- `sqlalchemy.inspect(engine).get_table_names(schema)` against the
modelled database. -/
def Database.tablesIn (db : Database) (schema : String) : List String :=
  (db.table_names.lookup schema).getD []

/-- `sqlalchemy.inspect(engine).get_view_names(schema)` against the
modelled database. -/
def Database.viewsIn (db : Database) (schema : String) : List String :=
  (db.view_names.lookup schema).getD []

/-- A `sqlalchemy.MetaData(schema=schema)` object, as cached in
`DatabaseConfig.metadata_dict`. -/
structure MetaData where
  schema : String
  deriving DecidableEq, Repr

/-- A `sqlalchemy.Table(name, metadata, autoload_with=engine)` object:
the reflected descriptor `_reflect_table` / `_reflect_view` returns. -/
structure Table where
  name : String
  metadata : MetaData
  deriving DecidableEq, Repr

/-- One introspection round-trip performed against the live connection.
Recorded in the trace component of the stateful operations so that
claims about which queries a call performs can be stated. -/
inductive Query where
  | get_schema_names
  | get_table_names (schema : String)
  | get_view_names (schema : String)
  deriving DecidableEq, Repr

/-- A value held by an instance attribute of a `DatabaseConfig`.  Python
has one instance namespace, so the constructor-set fields (`server`,
`database`, `uid`, `pwd`, `metadata_dict`, `engine`) and the
dynamically bound table/view descriptors all live in the same dict and
can overwrite one another. -/
inductive PyValue where
  | vStr (s : String)
  | vOptStr (o : Option String)
  | vConnection (e : Connection)
  | vMetadataDict (d : List (String × MetaData))
  | vTable (t : Table)
  deriving DecidableEq, Repr

/-- The state of a `DatabaseConfig` instance
(`src/database_object_configuration.py`): its instance namespace
(Python `__dict__`), an association list from attribute name to value
in which the most recent binding for a name shadows earlier ones, as
Python attribute assignment does. -/
structure DatabaseConfig where
  dict : List (String × PyValue)
  deriving DecidableEq, Repr

/-- Read a raw instance attribute (Python `getattr(self, name)` over
the instance dict): `none` when the attribute was never assigned. -/
def DatabaseConfig.attr (c : DatabaseConfig) (name : String) : Option PyValue :=
  c.dict.lookup name

/-- Python `setattr(self, name, value)`: the new binding shadows any
earlier binding of the same name — including the constructor-set
fields, which share the namespace. -/
def DatabaseConfig.setattr (c : DatabaseConfig) (name : String) (v : PyValue) :
    DatabaseConfig :=
  ⟨(name, v) :: c.dict⟩

/-- The `server` attribute as the string the source consumes in error
messages.  A value of another type (possible only after the user
rebinds the name through `set_table`/`set_view`) is read as the empty
string; no claim depends on message contents in such states. -/
def DatabaseConfig.server (c : DatabaseConfig) : String :=
  match c.attr "server" with
  | some (.vStr s) => s
  | _ => ""

/-- The `database` attribute as a string, as for `server`. -/
def DatabaseConfig.database (c : DatabaseConfig) : String :=
  match c.attr "database" with
  | some (.vStr s) => s
  | _ => ""

/-- The `uid` attribute as the optional string `_create_engine`
consumes. -/
def DatabaseConfig.uid (c : DatabaseConfig) : Option String :=
  match c.attr "uid" with
  | some (.vOptStr o) => o
  | _ => none

/-- The `pwd` attribute as the optional string `_create_engine`
consumes. -/
def DatabaseConfig.pwd (c : DatabaseConfig) : Option String :=
  match c.attr "pwd" with
  | some (.vOptStr o) => o
  | _ => none

/-- The `metadata_dict` attribute as the mapping the source's dict
operations consume.  A value of another type (possible after the user
rebinds the name through `set_table`/`set_view`; the source's next dict
operation on it would fail with a `TypeError`) is read as the empty
mapping. -/
def DatabaseConfig.metadata_dict (c : DatabaseConfig) :
    List (String × MetaData) :=
  match c.attr "metadata_dict" with
  | some (.vMetadataDict d) => d
  | _ => []

/-- The raw `engine` attribute.  Assigned a connection by
`_create_engine`; a later `setattr` under the name `engine` replaces
it, so the read yields whatever value sits there. -/
def DatabaseConfig.engine (c : DatabaseConfig) : Option PyValue :=
  c.attr "engine"

/-- Python `getattr` read of a bound table/view descriptor: `some` when
the named attribute currently holds a reflected descriptor. -/
def DatabaseConfig.getattr (c : DatabaseConfig) (name : String) : Option Table :=
  match c.attr name with
  | some (.vTable t) => some t
  | _ => none

/-- `DatabaseConfig._create_engine`: call
`connection_functions.generate_sql_connection` on the stored
credentials with `driver="sqlalchemy"` and assign the result to the
`engine` attribute; the exception for pwd-without-uid propagates. -/
def DatabaseConfig._create_engine (c : DatabaseConfig) :
    Except SqlError DatabaseConfig := do
  let e ← generate_sql_connection c.server c.database c.uid c.pwd "sqlalchemy"
  .ok (c.setattr "engine" (.vConnection e))

/-- `DatabaseConfig.__init__`: assign `server`, `database`, `uid`,
`pwd`, an empty `metadata_dict`, in order, then `_create_engine`. -/
def DatabaseConfig.init (server database : String)
    (uid pwd : Option String) : Except SqlError DatabaseConfig :=
  ((((((⟨[]⟩ : DatabaseConfig).setattr "server" (.vStr server)).setattr
    "database" (.vStr database)).setattr "uid" (.vOptStr uid)).setattr
    "pwd" (.vOptStr pwd)).setattr
    "metadata_dict" (.vMetadataDict []))._create_engine

/-- `DatabaseConfig._reflect_table`.  Returns the reflected table or the
raised exception, together with the instance state after the call (a
raise does not roll back the `metadata_dict` mutation) and the trace of
introspection queries the call performed, in order. -/
def DatabaseConfig._reflect_table (c : DatabaseConfig) (db : Database)
    (table schema : String) :
    Except SqlError Table × DatabaseConfig × List Query :=
  -- Check for schema in database connection
  if schema ∈ db.schema_names then
    -- Add schema to metadata_dict (a dict item insert, re-stored under
    -- the `metadata_dict` attribute in this immutable embedding)
    let c' := if (c.metadata_dict.lookup schema).isNone then
        c.setattr "metadata_dict"
          (.vMetadataDict ((schema, { schema := schema }) :: c.metadata_dict))
      else c
    -- Check for table in database + schema
    if table ∈ db.tablesIn schema then
      (.ok { name := table,
             metadata := (c'.metadata_dict.lookup schema).getD { schema := schema } },
       c', [.get_schema_names, .get_table_names schema])
    else
      (.error (.missingTableError
        ("View: " ++ table ++ " is missing from " ++ c.server ++ "." ++
          c.database ++ "." ++ schema)),
       c', [.get_schema_names, .get_table_names schema])
  else
    (.error (.missingSchemaError
      ("Schema: " ++ schema ++ " is missing from " ++ c.server ++ "." ++ c.database)),
     c, [.get_schema_names])

/-- `DatabaseConfig._reflect_view`: identical to `_reflect_table` with
the view list and `MissingViewError`. -/
def DatabaseConfig._reflect_view (c : DatabaseConfig) (db : Database)
    (view schema : String) :
    Except SqlError Table × DatabaseConfig × List Query :=
  -- Check for schema in database connection
  if schema ∈ db.schema_names then
    -- Add schema to metadata_dict (a dict item insert, re-stored under
    -- the `metadata_dict` attribute in this immutable embedding)
    let c' := if (c.metadata_dict.lookup schema).isNone then
        c.setattr "metadata_dict"
          (.vMetadataDict ((schema, { schema := schema }) :: c.metadata_dict))
      else c
    -- Check for view in database + schema
    if view ∈ db.viewsIn schema then
      (.ok { name := view,
             metadata := (c'.metadata_dict.lookup schema).getD { schema := schema } },
       c', [.get_schema_names, .get_view_names schema])
    else
      (.error (.missingViewError
        ("View: " ++ view ++ " is missing from " ++ c.server ++ "." ++
          c.database ++ "." ++ schema)),
       c', [.get_schema_names, .get_view_names schema])
  else
    (.error (.missingSchemaError
      ("Schema: " ++ schema ++ " is missing from " ++ c.server ++ "." ++ c.database)),
     c, [.get_schema_names])

/-- `DatabaseConfig.set_table`: resolve the attribute name (defaulting
to the table name), reflect, and on success bind the descriptor with
`setattr`.  The returned triple is (outcome, post-call state, query
trace). -/
def DatabaseConfig.set_table (c : DatabaseConfig) (db : Database)
    (table : String) (attr_name : Option String) (schema : String) :
    Except SqlError Unit × DatabaseConfig × List Query :=
  let attr_name := attr_name.getD table
  match c._reflect_table db table schema with
  | (.ok tbl, c', qs) => (.ok (), c'.setattr attr_name (.vTable tbl), qs)
  | (.error e, c', qs) => (.error e, c', qs)

/-- `DatabaseConfig.set_view`: resolve the attribute name (defaulting to
the view name), reflect, and on success bind the descriptor with
`setattr`. -/
def DatabaseConfig.set_view (c : DatabaseConfig) (db : Database)
    (view : String) (attr_name : Option String) (schema : String) :
    Except SqlError Unit × DatabaseConfig × List Query :=
  let attr_name := attr_name.getD view
  match c._reflect_view db view schema with
  | (.ok vw, c', qs) => (.ok (), c'.setattr attr_name (.vTable vw), qs)
  | (.error e, c', qs) => (.error e, c', qs)

/-- A bind call on a `DatabaseConfig`: either `set_table` or `set_view`,
with the object name, the optional attribute alias and the schema.
Used to state claims that quantify over both methods uniformly. -/
inductive BindOp where
  | table (name : String) (attr_name : Option String) (schema : String)
  | view (name : String) (attr_name : Option String) (schema : String)
  deriving DecidableEq, Repr

/-- Run a bind call. -/
def DatabaseConfig.bind (c : DatabaseConfig) (db : Database) :
    BindOp → Except SqlError Unit × DatabaseConfig × List Query
  | .table n a s => c.set_table db n a s
  | .view n a s => c.set_view db n a s

/-- The instance-attribute name a bind call resolves to: the alias if
given, else the object name. -/
def BindOp.resolvedAttr : BindOp → String
  | .table n a _ => a.getD n
  | .view n a _ => a.getD n

/-- The trusted-connection marker the spec speaks of. -/
def trustedMarker : String := "Trusted_Connection=Yes"

/-- Substring containment, stated on the character lists. -/
def strContains (s pat : String) : Prop := pat.data <:+: s.data

instance (s pat : String) : Decidable (strContains s pat) :=
  List.decidableInfix pat.data s.data

/-- The schema argument of a bind call. -/
def BindOp.schemaOf : BindOp → String
  | .table _ _ s => s
  | .view _ _ s => s

/-- The reflection a bind call performs (`_reflect_table` for
`set_table`, `_reflect_view` for `set_view`). -/
def DatabaseConfig.reflectOf (c : DatabaseConfig) (db : Database) :
    BindOp → Except SqlError Table × DatabaseConfig × List Query
  | .table n _ s => c._reflect_table db n s
  | .view n _ s => c._reflect_view db n s

/-- A concrete database used to instantiate hypotheses: one schema
`dbo` holding one table `t1` and one view `v1`. -/
def sampleDb : Database :=
  { schema_names := ["dbo"], table_names := [("dbo", ["t1"])],
    view_names := [("dbo", ["v1"])] }

/-- A concrete configuration instance: the namespace a fresh
construction produces (constructor-set fields and an engine, no bound
descriptors). -/
def sampleConfig : DatabaseConfig :=
  ⟨[("engine", .vConnection (.sqlalchemyEngine "")),
    ("metadata_dict", .vMetadataDict []),
    ("pwd", .vOptStr none), ("uid", .vOptStr none),
    ("database", .vStr "db"), ("server", .vStr "srv")]⟩

section helperLemmas

lemma data_append (a b : String) : (a ++ b).data = a.data ++ b.data := by
  cases a; cases b; rfl

lemma infix_append_right {α : Type} (x l₁ l₂ : List α) (h : x <:+: l₂) :
    x <:+: l₁ ++ l₂ := by
  obtain ⟨s, t, rfl⟩ := h
  exact ⟨l₁ ++ s, t, by simp⟩

lemma attr_setattr_self (c : DatabaseConfig) (name : String) (v : PyValue) :
    (c.setattr name v).attr name = some v := by
  simp [DatabaseConfig.setattr, DatabaseConfig.attr, List.lookup]

lemma attr_setattr_ne (c : DatabaseConfig) (name name' : String) (v : PyValue)
    (h : name' ≠ name) : (c.setattr name v).attr name' = c.attr name' := by
  simp [DatabaseConfig.setattr, DatabaseConfig.attr, List.lookup,
    beq_false_of_ne h]

lemma metadata_dict_setattr_dict (c : DatabaseConfig)
    (d : List (String × MetaData)) :
    (c.setattr "metadata_dict" (.vMetadataDict d)).metadata_dict = d := by
  simp [DatabaseConfig.metadata_dict, attr_setattr_self]

lemma metadata_dict_setattr_ne (c : DatabaseConfig) (name : String)
    (v : PyValue) (h : name ≠ "metadata_dict") :
    (c.setattr name v).metadata_dict = c.metadata_dict := by
  simp [DatabaseConfig.metadata_dict, attr_setattr_ne c name _ v (Ne.symm h)]

lemma engine_setattr_ne (c : DatabaseConfig) (name : String) (v : PyValue)
    (h : name ≠ "engine") : (c.setattr name v).engine = c.engine := by
  simp [DatabaseConfig.engine, attr_setattr_ne c name _ v (Ne.symm h)]

lemma reflect_table_state (c : DatabaseConfig) (db : Database) (n s : String) :
    (c._reflect_table db n s).2.1 =
      if s ∈ db.schema_names ∧ (c.metadata_dict.lookup s).isNone then
        c.setattr "metadata_dict"
          (.vMetadataDict ((s, { schema := s }) :: c.metadata_dict))
      else c := by
  unfold DatabaseConfig._reflect_table
  by_cases h1 : s ∈ db.schema_names
  · by_cases h2 : (c.metadata_dict.lookup s).isNone
    · by_cases h3 : n ∈ db.tablesIn s <;> simp [h1, h2, h3]
    · by_cases h3 : n ∈ db.tablesIn s <;> simp [h1, h2, h3]
  · simp [h1]

lemma reflect_view_state (c : DatabaseConfig) (db : Database) (n s : String) :
    (c._reflect_view db n s).2.1 =
      if s ∈ db.schema_names ∧ (c.metadata_dict.lookup s).isNone then
        c.setattr "metadata_dict"
          (.vMetadataDict ((s, { schema := s }) :: c.metadata_dict))
      else c := by
  unfold DatabaseConfig._reflect_view
  by_cases h1 : s ∈ db.schema_names
  · by_cases h2 : (c.metadata_dict.lookup s).isNone
    · by_cases h3 : n ∈ db.viewsIn s <;> simp [h1, h2, h3]
    · by_cases h3 : n ∈ db.viewsIn s <;> simp [h1, h2, h3]
  · simp [h1]

lemma reflect_table_engine (c : DatabaseConfig) (db : Database) (n s : String) :
    ((c._reflect_table db n s).2.1).engine = c.engine := by
  rw [reflect_table_state]
  split
  · exact engine_setattr_ne c _ _ (by decide)
  · rfl

lemma reflect_view_engine (c : DatabaseConfig) (db : Database) (n s : String) :
    ((c._reflect_view db n s).2.1).engine = c.engine := by
  rw [reflect_view_state]
  split
  · exact engine_setattr_ne c _ _ (by decide)
  · rfl

lemma set_table_metadata (c : DatabaseConfig) (db : Database) (n : String)
    (a : Option String) (s : String) (h : a.getD n ≠ "metadata_dict") :
    ((c.set_table db n a s).2.1).metadata_dict =
      ((c._reflect_table db n s).2.1).metadata_dict := by
  unfold DatabaseConfig.set_table
  rcases hr : c._reflect_table db n s with ⟨r, c', qs⟩
  cases r <;> simp [hr, metadata_dict_setattr_ne _ _ _ h]

lemma set_view_metadata (c : DatabaseConfig) (db : Database) (n : String)
    (a : Option String) (s : String) (h : a.getD n ≠ "metadata_dict") :
    ((c.set_view db n a s).2.1).metadata_dict =
      ((c._reflect_view db n s).2.1).metadata_dict := by
  unfold DatabaseConfig.set_view
  rcases hr : c._reflect_view db n s with ⟨r, c', qs⟩
  cases r <;> simp [hr, metadata_dict_setattr_ne _ _ _ h]

lemma set_table_engine (c : DatabaseConfig) (db : Database) (n : String)
    (a : Option String) (s : String) (h : a.getD n ≠ "engine") :
    ((c.set_table db n a s).2.1).engine = c.engine := by
  unfold DatabaseConfig.set_table
  rcases hr : c._reflect_table db n s with ⟨r, c', qs⟩
  have hc' : c'.engine = c.engine := by
    have := reflect_table_engine c db n s
    rw [hr] at this
    exact this
  cases r <;> simp [hr, hc', engine_setattr_ne _ _ _ h]

lemma set_view_engine (c : DatabaseConfig) (db : Database) (n : String)
    (a : Option String) (s : String) (h : a.getD n ≠ "engine") :
    ((c.set_view db n a s).2.1).engine = c.engine := by
  unfold DatabaseConfig.set_view
  rcases hr : c._reflect_view db n s with ⟨r, c', qs⟩
  have hc' : c'.engine = c.engine := by
    have := reflect_view_engine c db n s
    rw [hr] at this
    exact this
  cases r <;> simp [hr, hc', engine_setattr_ne _ _ _ h]

end helperLemmas

/-- C1: for every server and database, calling
`generate_sql_connection_string` with `pwd` set and `uid` unset raises
`ConnectionStringParsingError` and returns no string. -/
theorem C1_pwd_without_uid_raises (server database pwd : String) :
    generate_sql_connection_string server database none (some pwd) =
      .error .connectionStringParsingError := rfl

/-- C10: for every server, database, password and driver tag (including
unrecognized ones), `generate_sql_connection` with `pwd` set and `uid`
unset raises `ConnectionStringParsingError`: the connection string is
built before the driver-tag dispatch, so this error preempts both the
unknown-driver error and the pymssql branch. -/
theorem C10_parse_error_preempts_dispatch (server database pwd driver : String) :
    generate_sql_connection server database none (some pwd) driver =
      .error .connectionStringParsingError := rfl

/-- C8 counterexample: Python `setattr` shares the one instance
namespace, so a successful `set_table` call with `attr_name="engine"`
overwrites the engine attribute with the reflected descriptor — a bind
call that modifies the engine field, contradicting the claim as stated
over every bind call. -/
theorem C8_counterexample :
    (sampleConfig.set_table sampleDb "t1" (some "engine") "dbo").1 = .ok () ∧
    sampleConfig.engine = some (.vConnection (.sqlalchemyEngine "")) ∧
    ((sampleConfig.set_table sampleDb "t1" (some "engine") "dbo").2.1).engine =
      some (.vTable { name := "t1", metadata := { schema := "dbo" } }) :=
  ⟨rfl, rfl, rfl⟩

/-- C8 (amended): the engine attribute is assigned during construction
to exactly the connection `generate_sql_connection` produces with the
sqlalchemy driver, and no `set_table` or `set_view` call — succeeding
or raising — whose resolved attribute name is not `engine` modifies the
engine attribute or creates a new connection/engine handle. -/
theorem C8_engine_assigned_once_and_framed :
    (∀ server database uid pwd,
      (DatabaseConfig.init server database uid pwd).map DatabaseConfig.engine =
        (generate_sql_connection server database uid pwd "sqlalchemy").map
          (fun e => some (.vConnection e))) ∧
    (∀ (c : DatabaseConfig) (db : Database) (op : BindOp),
      op.resolvedAttr ≠ "engine" → ((c.bind db op).2.1).engine = c.engine) := by
  constructor
  · intro server database uid pwd
    rcases h : generate_sql_connection server database uid pwd "sqlalchemy" with e | v <;>
      simp [DatabaseConfig.init, DatabaseConfig._create_engine,
        DatabaseConfig.server, DatabaseConfig.database, DatabaseConfig.uid,
        DatabaseConfig.pwd, DatabaseConfig.engine, DatabaseConfig.attr,
        DatabaseConfig.setattr, List.lookup, h, Except.map, bind, Except.bind]
  · intro c db op h
    cases op with
    | table n a s => exact set_table_engine c db n a s h
    | view n a s => exact set_view_engine c db n a s h

/-- C8 witness: the frame conjunct instantiated at a concrete bind call
whose resolved attribute name is not `engine`. -/
theorem C8_witness :
    (BindOp.table "t1" none "dbo").resolvedAttr ≠ "engine" ∧
    ((sampleConfig.bind sampleDb (.table "t1" none "dbo")).2.1).engine =
      sampleConfig.engine :=
  ⟨by decide, C8_engine_assigned_once_and_framed.2 sampleConfig sampleDb
    (.table "t1" none "dbo") (by decide)⟩

/-- C4: when the live schema-name list excludes the requested schema,
`set_table` (and `set_view`) raises `MissingSchemaError`, and the call
performs no table-existence (or view-existence) query against that
schema: its query trace is exactly the schema-listing query. -/
theorem C4_missing_schema_preempts_existence_check
    (c : DatabaseConfig) (db : Database) (name : String)
    (attr_name : Option String) (schema : String)
    (h : schema ∉ db.schema_names) :
    (∃ msg, (c.set_table db name attr_name schema).1 =
      .error (.missingSchemaError msg)) ∧
    (c.set_table db name attr_name schema).2.2 = [.get_schema_names] ∧
    (∀ s, Query.get_table_names s ∉ (c.set_table db name attr_name schema).2.2) ∧
    (∃ msg, (c.set_view db name attr_name schema).1 =
      .error (.missingSchemaError msg)) ∧
    (c.set_view db name attr_name schema).2.2 = [.get_schema_names] ∧
    (∀ s, Query.get_view_names s ∉ (c.set_view db name attr_name schema).2.2) := by
  unfold DatabaseConfig.set_table DatabaseConfig.set_view
    DatabaseConfig._reflect_table DatabaseConfig._reflect_view
  simp [h]

/-- C4 witness: at a concrete instance whose database has only schema
`dbo`, binding in schema `x` fails as C4 states. -/
theorem C4_witness :
    "x" ∉ sampleDb.schema_names ∧
    ((∃ msg, (sampleConfig.set_table sampleDb "t1" none "x").1 =
      .error (.missingSchemaError msg)) ∧
    (sampleConfig.set_table sampleDb "t1" none "x").2.2 = [.get_schema_names] ∧
    (∀ s, Query.get_table_names s ∉ (sampleConfig.set_table sampleDb "t1" none "x").2.2) ∧
    (∃ msg, (sampleConfig.set_view sampleDb "t1" none "x").1 =
      .error (.missingSchemaError msg)) ∧
    (sampleConfig.set_view sampleDb "t1" none "x").2.2 = [.get_schema_names] ∧
    (∀ s, Query.get_view_names s ∉ (sampleConfig.set_view sampleDb "t1" none "x").2.2)) :=
  ⟨by decide, C4_missing_schema_preempts_existence_check sampleConfig sampleDb "t1"
    none "x" (by decide)⟩

/-- C5: when the requested schema exists but the table name is absent
from that schema's live table list, `set_table` raises
`MissingTableError`; in the analogous case for a view name absent from
the schema's view list, `set_view` raises `MissingViewError`. -/
theorem C5_missing_object_errors
    (c : DatabaseConfig) (db : Database) (tname vname : String)
    (attr_name : Option String) (schema : String)
    (hs : schema ∈ db.schema_names)
    (ht : tname ∉ db.tablesIn schema)
    (hv : vname ∉ db.viewsIn schema) :
    (∃ msg, (c.set_table db tname attr_name schema).1 =
      .error (.missingTableError msg)) ∧
    (∃ msg, (c.set_view db vname attr_name schema).1 =
      .error (.missingViewError msg)) := by
  unfold DatabaseConfig.set_table DatabaseConfig.set_view
    DatabaseConfig._reflect_table DatabaseConfig._reflect_view
  simp [hs, ht, hv]

/-- C5 witness: at a concrete instance, binding the absent table `t2`
and the absent view `v2` in the existing schema `dbo` fails as C5
states. -/
theorem C5_witness :
    "dbo" ∈ sampleDb.schema_names ∧
    "t2" ∉ sampleDb.tablesIn "dbo" ∧
    "v2" ∉ sampleDb.viewsIn "dbo" ∧
    ((∃ msg, (sampleConfig.set_table sampleDb "t2" none "dbo").1 =
      .error (.missingTableError msg)) ∧
    (∃ msg, (sampleConfig.set_view sampleDb "v2" none "dbo").1 =
      .error (.missingViewError msg))) :=
  ⟨by decide, by decide, by decide,
    C5_missing_object_errors sampleConfig sampleDb "t2" "v2" none "dbo"
      (by decide) (by decide) (by decide)⟩

/-- C9: a bind call that raises `MissingTableError` / `MissingViewError`
for an existing schema has nonetheless created the metadata cache entry
for that schema when it did not exist before: the failed bind is not
atomic. -/
theorem C9_failed_bind_mutates_cache
    (c : DatabaseConfig) (db : Database) (tname vname : String)
    (attr_name : Option String) (schema : String)
    (hs : schema ∈ db.schema_names)
    (ht : tname ∉ db.tablesIn schema)
    (hv : vname ∉ db.viewsIn schema)
    (hnone : c.metadata_dict.lookup schema = none) :
    (∃ msg, (c.set_table db tname attr_name schema).1 =
      .error (.missingTableError msg)) ∧
    ((c.set_table db tname attr_name schema).2.1).metadata_dict.lookup schema =
      some { schema := schema } ∧
    (∃ msg, (c.set_view db vname attr_name schema).1 =
      .error (.missingViewError msg)) ∧
    ((c.set_view db vname attr_name schema).2.1).metadata_dict.lookup schema =
      some { schema := schema } := by
  refine ⟨?_, ?_, ?_, ?_⟩
  · unfold DatabaseConfig.set_table DatabaseConfig._reflect_table
    simp [hs, ht]
  · unfold DatabaseConfig.set_table DatabaseConfig._reflect_table
    simp [hs, ht, hnone, metadata_dict_setattr_dict, List.lookup]
  · unfold DatabaseConfig.set_view DatabaseConfig._reflect_view
    simp [hs, hv]
  · unfold DatabaseConfig.set_view DatabaseConfig._reflect_view
    simp [hs, hv, hnone, metadata_dict_setattr_dict, List.lookup]

/-- C9 witness: at a concrete fresh instance, the failed binds for the
absent table `t2` / view `v2` in schema `dbo` create the `dbo` cache
entry. -/
theorem C9_witness :
    "dbo" ∈ sampleDb.schema_names ∧
    "t2" ∉ sampleDb.tablesIn "dbo" ∧
    "v2" ∉ sampleDb.viewsIn "dbo" ∧
    sampleConfig.metadata_dict.lookup "dbo" = none ∧
    ((∃ msg, (sampleConfig.set_table sampleDb "t2" none "dbo").1 =
      .error (.missingTableError msg)) ∧
    ((sampleConfig.set_table sampleDb "t2" none "dbo").2.1).metadata_dict.lookup "dbo" =
      some { schema := "dbo" } ∧
    (∃ msg, (sampleConfig.set_view sampleDb "v2" none "dbo").1 =
      .error (.missingViewError msg)) ∧
    ((sampleConfig.set_view sampleDb "v2" none "dbo").2.1).metadata_dict.lookup "dbo" =
      some { schema := "dbo" }) :=
  ⟨by decide, by decide, by decide, by decide,
    C9_failed_bind_mutates_cache sampleConfig sampleDb "t2" "v2" none "dbo"
      (by decide) (by decide) (by decide) (by decide)⟩

/-- C7 counterexample: Python `setattr` shares the one instance
namespace, so after a first bind creates the cache entry for `dbo`, a
second successful `set_table` call with `attr_name="metadata_dict"`
rebinds the whole cache attribute to the reflected descriptor, removing
the entry — contradicting "once present it is never replaced or removed
by any subsequent operation". -/
theorem C7_counterexample :
    (sampleConfig.set_table sampleDb "t1" none "dbo").1 = .ok () ∧
    ((sampleConfig.set_table sampleDb "t1" none "dbo").2.1).metadata_dict.lookup
      "dbo" = some { schema := "dbo" } ∧
    (((sampleConfig.set_table sampleDb "t1" none "dbo").2.1).set_table sampleDb
      "t1" (some "metadata_dict") "dbo").1 = .ok () ∧
    ((((sampleConfig.set_table sampleDb "t1" none "dbo").2.1).set_table sampleDb
      "t1" (some "metadata_dict") "dbo").2.1).metadata_dict.lookup "dbo" =
      none :=
  ⟨rfl, rfl, rfl, rfl⟩

/-- C7 (amended): for every instance, schema name `s`, and bind call
whose resolved attribute name is not `metadata_dict` itself, the cache
entry under `s` after the call is the entry that was already there if
one existed (such a call never replaces or removes an existing entry),
and a new entry — the fresh `MetaData` for `s` — appears exactly when
`s` is the schema the call references, that schema exists in the live
database (the call reached the cache step), and no entry existed
before. -/
theorem C7_metadata_cache_write_once
    (c : DatabaseConfig) (db : Database) (op : BindOp) (s : String)
    (hattr : op.resolvedAttr ≠ "metadata_dict") :
    ((c.bind db op).2.1).metadata_dict.lookup s =
      (c.metadata_dict.lookup s).or
        (if s = op.schemaOf ∧ op.schemaOf ∈ db.schema_names then
          some { schema := s } else none) := by
  have key : ∀ s0, ((if s0 ∈ db.schema_names ∧ (c.metadata_dict.lookup s0).isNone then
        c.setattr "metadata_dict"
          (.vMetadataDict ((s0, { schema := s0 }) :: c.metadata_dict))
      else c) : DatabaseConfig).metadata_dict.lookup s =
      (c.metadata_dict.lookup s).or
        (if s = s0 ∧ s0 ∈ db.schema_names then some { schema := s } else none) := by
    intro s0
    by_cases h1 : s0 ∈ db.schema_names
    · by_cases h2 : (c.metadata_dict.lookup s0).isNone
      · rw [if_pos ⟨h1, h2⟩, metadata_dict_setattr_dict]
        by_cases h3 : s = s0
        · subst h3
          have hno : c.metadata_dict.lookup s = none :=
            Option.isNone_iff_eq_none.mp h2
          simp [List.lookup, hno, h1, Option.or]
        · simp only [List.lookup, beq_false_of_ne h3]
          rw [if_neg (fun hc => h3 hc.1)]
          cases c.metadata_dict.lookup s <;> simp [Option.or]
      · rw [if_neg (fun hc => h2 hc.2)]
        by_cases h3 : s = s0
        · subst h3
          rcases ho : c.metadata_dict.lookup s with _ | m
          · rw [ho] at h2; simp at h2
          · simp [Option.or]
        · rw [if_neg (fun hc => h3 hc.1)]
          cases c.metadata_dict.lookup s <;> simp [Option.or]
    · rw [if_neg (fun hc => h1 hc.1), if_neg (fun hc => h1 hc.2)]
      cases c.metadata_dict.lookup s <;> simp [Option.or]
  cases op with
  | table n a s0 =>
    have hattr' : a.getD n ≠ "metadata_dict" := hattr
    show ((c.set_table db n a s0).2.1).metadata_dict.lookup s = _
    rw [set_table_metadata c db n a s0 hattr', reflect_table_state]
    exact key s0
  | view n a s0 =>
    have hattr' : a.getD n ≠ "metadata_dict" := hattr
    show ((c.set_view db n a s0).2.1).metadata_dict.lookup s = _
    rw [set_view_metadata c db n a s0 hattr', reflect_view_state]
    exact key s0

/-- C7 witness: the amended statement instantiated at a concrete bind
call whose resolved attribute name is not `metadata_dict`. -/
theorem C7_witness :
    (BindOp.table "t1" none "dbo").resolvedAttr ≠ "metadata_dict" ∧
    ((sampleConfig.bind sampleDb (.table "t1" none "dbo")).2.1).metadata_dict.lookup
      "dbo" =
      (sampleConfig.metadata_dict.lookup "dbo").or
        (if "dbo" = (BindOp.table "t1" none "dbo").schemaOf ∧
            (BindOp.table "t1" none "dbo").schemaOf ∈ sampleDb.schema_names then
          some { schema := "dbo" } else none) :=
  ⟨by decide, C7_metadata_cache_write_once sampleConfig sampleDb
    (.table "t1" none "dbo") "dbo" (by decide)⟩

/-- C6: after two successful bind calls that resolve to the same
attribute name, the instance attribute of that name refers to the
descriptor produced by the second call only; any different descriptor
(in particular the first binding) is no longer reachable under that
name. -/
theorem C6_rebind_overwrites
    (c : DatabaseConfig) (db1 db2 : Database) (op1 op2 : BindOp) (attr : String)
    (h1 : op1.resolvedAttr = attr) (h2 : op2.resolvedAttr = attr)
    (hok1 : (c.bind db1 op1).1 = .ok ())
    (hok2 : (((c.bind db1 op1).2.1).bind db2 op2).1 = .ok ()) :
    ∃ t2, (((c.bind db1 op1).2.1).reflectOf db2 op2).1 = .ok t2 ∧
      ((((c.bind db1 op1).2.1).bind db2 op2).2.1).getattr attr = some t2 ∧
      ∀ t1, t1 ≠ t2 →
        ((((c.bind db1 op1).2.1).bind db2 op2).2.1).getattr attr ≠ some t1 := by
  generalize (c.bind db1 op1).2.1 = c1 at hok2 ⊢
  cases op2 with
  | table n a s =>
    have h2' : a.getD n = attr := h2
    rcases hr : c1._reflect_table db2 n s with ⟨r, c', qs⟩
    cases r with
    | error e =>
      rw [show c1.bind db2 (.table n a s) = c1.set_table db2 n a s from rfl] at hok2
      unfold DatabaseConfig.set_table at hok2
      rw [hr] at hok2
      simp at hok2
    | ok tbl =>
      have hg : ((c1.bind db2 (.table n a s)).2.1).getattr attr = some tbl := by
        rw [show c1.bind db2 (.table n a s) = c1.set_table db2 n a s from rfl]
        unfold DatabaseConfig.set_table
        rw [hr]
        simp [DatabaseConfig.setattr, DatabaseConfig.getattr, DatabaseConfig.attr,
          List.lookup, h2']
      refine ⟨tbl, ?_, hg, ?_⟩
      · rw [show c1.reflectOf db2 (.table n a s) = c1._reflect_table db2 n s from rfl,
          hr]
      · intro t1 hne heq
        exact hne (Option.some.inj (hg.symm.trans heq)).symm
  | view n a s =>
    have h2' : a.getD n = attr := h2
    rcases hr : c1._reflect_view db2 n s with ⟨r, c', qs⟩
    cases r with
    | error e =>
      rw [show c1.bind db2 (.view n a s) = c1.set_view db2 n a s from rfl] at hok2
      unfold DatabaseConfig.set_view at hok2
      rw [hr] at hok2
      simp at hok2
    | ok vw =>
      have hg : ((c1.bind db2 (.view n a s)).2.1).getattr attr = some vw := by
        rw [show c1.bind db2 (.view n a s) = c1.set_view db2 n a s from rfl]
        unfold DatabaseConfig.set_view
        rw [hr]
        simp [DatabaseConfig.setattr, DatabaseConfig.getattr, DatabaseConfig.attr,
          List.lookup, h2']
      refine ⟨vw, ?_, hg, ?_⟩
      · rw [show c1.reflectOf db2 (.view n a s) = c1._reflect_view db2 n s from rfl,
          hr]
      · intro t1 hne heq
        exact hne (Option.some.inj (hg.symm.trans heq)).symm

/-- C6 witness: at a concrete instance, binding table `t1` and then
view `v1` under the same attribute name `t1` leaves the attribute
referring to the view descriptor of the second call. -/
theorem C6_witness :
    (BindOp.table "t1" none "dbo").resolvedAttr = "t1" ∧
    (BindOp.view "v1" (some "t1") "dbo").resolvedAttr = "t1" ∧
    (sampleConfig.bind sampleDb (.table "t1" none "dbo")).1 = .ok () ∧
    (((sampleConfig.bind sampleDb (.table "t1" none "dbo")).2.1).bind sampleDb
      (.view "v1" (some "t1") "dbo")).1 = .ok () ∧
    (∃ t2, (((sampleConfig.bind sampleDb (.table "t1" none "dbo")).2.1).reflectOf
        sampleDb (.view "v1" (some "t1") "dbo")).1 = .ok t2 ∧
      ((((sampleConfig.bind sampleDb (.table "t1" none "dbo")).2.1).bind sampleDb
        (.view "v1" (some "t1") "dbo")).2.1).getattr "t1" = some t2 ∧
      ∀ t1, t1 ≠ t2 →
        ((((sampleConfig.bind sampleDb (.table "t1" none "dbo")).2.1).bind sampleDb
          (.view "v1" (some "t1") "dbo")).2.1).getattr "t1" ≠ some t1) :=
  ⟨by decide, by decide, rfl, rfl,
    C6_rebind_overwrites sampleConfig sampleDb sampleDb (.table "t1" none "dbo")
      (.view "v1" (some "t1") "dbo") "t1" (by decide) (by decide) rfl rfl⟩

/-- C2 counterexample: with both uid and pwd set, the produced string
can nonetheless contain the trusted-connection marker — here the
password value itself carries it — so the claim's "no trusted-connection
marker" conjunct is false as universally stated. -/
theorem C2_counterexample :
    ∃ s3, generate_sql_connection_string "s" "d" (some "u")
        (some "Trusted_Connection=Yes") = .ok s3 ∧
      strContains s3 trustedMarker := by
  refine ⟨_, rfl, ⟨("DRIVER=\x7bSQL Server\x7d;" ++ "SERVER=" ++ "s" ++ ";" ++
    "DATABASE=" ++ "d" ++ ";" ++ "UID=" ++ "u" ++ ";" ++ "PWD=").data, [], ?_⟩⟩
  simp [data_append, trustedMarker, List.append_assoc]

/-- C2 (amended): for every server, database, uid and pwd — with no uid
and no pwd the builder returns a string containing the
trusted-connection marker and an empty UID field; with uid set and no
pwd, a trusted-connection string containing that uid in the UID field;
with both set, a string containing both values, and — provided none of
server, database, uid, pwd contains an underscore character (so none
can inject the marker, which contains one) — no trusted-connection
marker. -/
theorem C2_connection_string_shapes (server database uid pwd : String) :
    (∃ s1, generate_sql_connection_string server database none none = .ok s1 ∧
      strContains s1 trustedMarker ∧ strContains s1 "UID=;") ∧
    (∃ s2, generate_sql_connection_string server database (some uid) none = .ok s2 ∧
      strContains s2 trustedMarker ∧ strContains s2 ("UID=" ++ uid ++ ";")) ∧
    (∃ s3, generate_sql_connection_string server database (some uid) (some pwd) =
        .ok s3 ∧
      strContains s3 uid ∧ strContains s3 pwd ∧
      ('_' ∉ server.data → '_' ∉ database.data → '_' ∉ uid.data →
        '_' ∉ pwd.data → ¬ strContains s3 trustedMarker)) := by
  refine ⟨⟨_, rfl, ?_, ?_⟩, ⟨_, rfl, ?_, ?_⟩, ⟨_, rfl, ?_, ?_, ?_⟩⟩
  · show trustedMarker.data <:+: _
    rw [data_append]
    exact infix_append_right _ _ _ (by decide)
  · show ("UID=;").data <:+: _
    rw [data_append]
    exact infix_append_right _ _ _ (by decide)
  · show trustedMarker.data <:+: _
    rw [data_append]
    exact infix_append_right _ _ _ (by decide)
  · show ("UID=" ++ uid ++ ";").data <:+: _
    refine ⟨("DRIVER=\x7bSQL Server\x7d;" ++ "SERVER=" ++ server ++ ";" ++
      "DATABASE=" ++ database ++ ";").data, "Trusted_Connection=Yes".data, ?_⟩
    simp [data_append, List.append_assoc]
  · show uid.data <:+: _
    refine ⟨("DRIVER=\x7bSQL Server\x7d;" ++ "SERVER=" ++ server ++ ";" ++
      "DATABASE=" ++ database ++ ";" ++ "UID=").data,
      (";" ++ "PWD=" ++ pwd).data, ?_⟩
    simp [data_append, List.append_assoc]
  · show pwd.data <:+: _
    refine ⟨("DRIVER=\x7bSQL Server\x7d;" ++ "SERVER=" ++ server ++ ";" ++
      "DATABASE=" ++ database ++ ";" ++ "UID=" ++ uid ++ ";" ++ "PWD=").data,
      [], ?_⟩
    simp [data_append, List.append_assoc]
  · intro hs hd hu hp hm
    have hmem : ('_' : Char) ∈
        ("DRIVER=\x7bSQL Server\x7d;" ++ "SERVER=" ++ server ++ ";" ++
          "DATABASE=" ++ database ++ ";" ++ "UID=" ++ uid ++ ";" ++
          "PWD=" ++ pwd).data :=
      hm.subset (show ('_' : Char) ∈ trustedMarker.data by decide)
    simp only [data_append, List.mem_append] at hmem
    rcases hmem with
      ((((((((((h | h) | h) | h) | h) | h) | h) | h) | h) | h) | h) | h
    · exact absurd h (by decide)
    · exact absurd h (by decide)
    · exact hs h
    · exact absurd h (by decide)
    · exact absurd h (by decide)
    · exact hd h
    · exact absurd h (by decide)
    · exact absurd h (by decide)
    · exact hu h
    · exact absurd h (by decide)
    · exact absurd h (by decide)
    · exact hp h

/-- C2 witness: the amended statement instantiated at concrete inputs,
with the underscore provisos of the no-marker conjunct holding there. -/
theorem C2_witness :
    '_' ∉ "srv".data ∧ '_' ∉ "db".data ∧ '_' ∉ "u".data ∧ '_' ∉ "p".data ∧
    ((∃ s1, generate_sql_connection_string "srv" "db" none none = .ok s1 ∧
      strContains s1 trustedMarker ∧ strContains s1 "UID=;") ∧
    (∃ s2, generate_sql_connection_string "srv" "db" (some "u") none = .ok s2 ∧
      strContains s2 trustedMarker ∧ strContains s2 ("UID=" ++ "u" ++ ";")) ∧
    (∃ s3, generate_sql_connection_string "srv" "db" (some "u") (some "p") =
        .ok s3 ∧
      strContains s3 "u" ∧ strContains s3 "p" ∧
      ('_' ∉ "srv".data → '_' ∉ "db".data → '_' ∉ "u".data →
        '_' ∉ "p".data → ¬ strContains s3 trustedMarker))) :=
  ⟨by decide, by decide, by decide, by decide,
    C2_connection_string_shapes "srv" "db" "u" "p"⟩

/-- C3 counterexample: with pwd set and uid unset, an unrecognized
driver tag does not raise `UnknownDatabaseDriverError` — the parsing
error from the connection-string builder is raised first — so the claim
is false as universally stated over uid and pwd. -/
theorem C3_counterexample :
    generate_sql_connection "s" "d" none (some "p") "bogus" =
      .error .connectionStringParsingError := rfl

/-- C3 (amended): for every server and database, and every credential
combination the builder accepts (not pwd-without-uid), calling
`generate_sql_connection` with a driver tag other than "sqlalchemy",
"pyodbc" or "pymssql" raises `UnknownDatabaseDriverError` whose message
lists the three valid tag options. -/
theorem C3_unknown_driver_error (server database : String)
    (uid pwd : Option String) (driver : String)
    (hcred : ¬ (uid = none ∧ pwd ≠ none))
    (h1 : driver ≠ "sqlalchemy") (h2 : driver ≠ "pyodbc")
    (h3 : driver ≠ "pymssql") :
    ∃ msg, generate_sql_connection server database uid pwd driver =
      .error (.unknownDatabaseDriverError msg) ∧
      strContains msg "sqlalchemy" ∧ strContains msg "pyodbc" ∧
      strContains msg "pymssql" := by
  have hmsg : generate_sql_connection server database uid pwd driver =
      .error (.unknownDatabaseDriverError
        ("Unknown database connection driver: " ++ driver ++
          "\n            Options are: sqlalchemy, pyodbc, pymssql")) := by
    rcases uid with _ | u <;> rcases pwd with _ | p
    · unfold generate_sql_connection generate_sql_connection_string
      simp [h1, h2, h3, bind, Except.bind]
    · exact absurd ⟨rfl, by simp⟩ hcred
    · unfold generate_sql_connection generate_sql_connection_string
      simp [h1, h2, h3, bind, Except.bind]
    · unfold generate_sql_connection generate_sql_connection_string
      simp [h1, h2, h3, bind, Except.bind]
  refine ⟨_, hmsg, ?_, ?_, ?_⟩ <;>
    · show _ <:+: _
      rw [data_append]
      exact infix_append_right _ _ _ (by decide)

/-- C3 witness: the amended statement instantiated at the unrecognized
tag "bogus" with no credentials. -/
theorem C3_witness :
    ¬ ((none : Option String) = none ∧ (none : Option String) ≠ none) ∧
    "bogus" ≠ "sqlalchemy" ∧ "bogus" ≠ "pyodbc" ∧ "bogus" ≠ "pymssql" ∧
    (∃ msg, generate_sql_connection "s" "d" none none "bogus" =
      .error (.unknownDatabaseDriverError msg) ∧
      strContains msg "sqlalchemy" ∧ strContains msg "pyodbc" ∧
      strContains msg "pymssql") :=
  ⟨by simp, by decide, by decide, by decide,
    C3_unknown_driver_error "s" "d" none none "bogus"
      (by simp) (by decide) (by decide) (by decide)⟩
